import Mathlib

/-!
Shallow embedding of `src/thrift-decoder.py` (class `ThriftDecoder`), a
schema-less decoder for the Thrift Binary Protocol.

The Python decoder reads from an open binary file `self.fp`.  A file is
modelled as the list of its not-yet-consumed bytes (`List Nat`, each entry
0..255); `fp.read(n)` returns up to `n` bytes from the front and drops them.
Python exceptions abort the whole decode (the program installs no exception
handler), so every reader is modelled in the `Except` style: it either
returns a value together with the remaining bytes, or an error naming the
Python exception that the corresponding line raises.

Python `str` values (the method name, decoded string fields, synthetic
struct names) are modelled as lists of Unicode code points (`List Nat`),
which is exactly Python's `str` data model.
-/

/-- Errors of the decoder.  Each constructor names a concrete Python
exception site in `src/thrift-decoder.py`:

* `truncatedInput` — `struct.error` raised by `struct.unpack` when
  `fp.read(n)` returned fewer than the `n` bytes the format requires
  (the spec's `TruncatedInput`);
* `invalidLength` — `struct.error` ("bad char in format") raised by
  `struct.unpack` in `read_string` when the `i32` length is negative, making
  the format string `'-Ns'` (the spec's `InvalidLength`);
* `invalidEncoding` — `UnicodeDecodeError` raised by `.decode('utf-8')`
  in `read_string` (the spec's `InvalidEncoding`);
* `unknownType c` — `KeyError` raised by the `self.type_handlers[t]`
  lookup in `read_struct` when tag `c` has no table entry (the spec's
  `UnknownType`); the exception value carries the offending code `c`;
* `notImplemented` — `NotImplementedError` raised unconditionally by
  `read_double`, `read_map`, `read_set`, `read_list`, `read_enum`;
* `attributeError` — `AttributeError` raised when a handler bound to a
  decoder whose `fp` is still `None` tries `self.fp.read(...)`;
* `outOfFuel` — artefact of the embedding only: the recursive struct
  walk is given explicit fuel, and this value is returned when it runs
  out.  No theorem below equates it with a real error. -/
inductive DErr where
  | truncatedInput
  | invalidLength
  | invalidEncoding
  | unknownType (code : Nat)
  | notImplemented
  | attributeError
  | outOfFuel
deriving DecidableEq, Repr

/-- Python field values, as stored in the `(field_id, type, value)` triples
of `read_struct`: booleans (`read_bool`), integers (`read_byte`,
`read_i16`, `read_i32`, `read_i64`), and strings (`read_string`, and the
synthetic `UnknownStructN` names stored for nested struct fields), a string
being a list of code points. -/
inductive Value where
  | vbool (b : Bool)
  | vint (z : Int)
  | vstr (s : List Nat)
deriving DecidableEq, Repr

/-- A decoded field list: the tuple of `(field_id, type_tag, value)`
triples built by `read_struct`. -/
abbrev FieldList := List (Int × Nat × Value)

/-- Interpretation of an unsigned value `u` (< `2 * m`) as a big-endian
two's-complement signed integer with sign bound `m` (`m = 2^15` for `!h`,
`2^31` for `!i`, `2^63` for `!q` in `struct.unpack`). -/
def toSigned (u m : Nat) : Int :=
  if u < m then (u : Int) else (u : Int) - 2 * m

/-- Model of `read_byte` (line 128): `unpack('!B', fp.read(1))` — one
unsigned byte; `struct.error` if no byte remains. -/
def rdByte : List Nat → Except DErr (Nat × List Nat)
  | b :: rest => .ok (b, rest)
  | [] => .error .truncatedInput

/-- Model of `read_bool` (line 125): `bool(read_byte())` — nonzero is
`True`. -/
def rdBool (l : List Nat) : Except DErr (Bool × List Nat) :=
  match rdByte l with
  | .ok (b, rest) => .ok (b != 0, rest)
  | .error e => .error e

/-- Model of `read_i16` (line 134): `unpack('!h', fp.read(2))` — big-endian
two's-complement 16-bit integer; `struct.error` if fewer than 2 bytes
remain. -/
def rdI16 : List Nat → Except DErr (Int × List Nat)
  | b0 :: b1 :: rest => .ok (toSigned (b0 * 256 + b1) 32768, rest)
  | _ => .error .truncatedInput

/-- Model of `read_i32` (line 137): `unpack('!i', fp.read(4))`. -/
def rdI32 : List Nat → Except DErr (Int × List Nat)
  | b0 :: b1 :: b2 :: b3 :: rest =>
    .ok (toSigned (b0 * 16777216 + b1 * 65536 + b2 * 256 + b3) 2147483648, rest)
  | _ => .error .truncatedInput

/-- Model of `read_i64` (line 140): `unpack('!q', fp.read(8))`. -/
def rdI64 : List Nat → Except DErr (Int × List Nat)
  | b0 :: b1 :: b2 :: b3 :: b4 :: b5 :: b6 :: b7 :: rest =>
    .ok (toSigned (b0 * 72057594037927936 + b1 * 281474976710656 +
      b2 * 1099511627776 + b3 * 4294967296 + b4 * 16777216 + b5 * 65536 +
      b6 * 256 + b7) 9223372036854775808, rest)
  | _ => .error .truncatedInput

/-- Model of `read_double` (line 131): `raise NotImplementedError`, before
any byte is read, so no value of any type is ever produced. -/
def rdDouble (_l : List Nat) : Except DErr (Value × List Nat) :=
  .error .notImplemented

/-- One continuation byte after lead byte `b0` in `[0xC0,0xE0)`: decode a
two-byte sequence, rejecting bad continuation bytes and overlong forms
(value below U+0080). -/
def utf8Dec1 (b0 : Nat) : List Nat → Option (Nat × List Nat)
  | b1 :: r =>
    if 192 ≤ b0 ∧ 128 ≤ b1 ∧ b1 < 192 then
      if 128 ≤ (b0 - 192) * 64 + (b1 - 128) then
        some ((b0 - 192) * 64 + (b1 - 128), r)
      else none
    else none
  | [] => none

/-- Two continuation bytes after a lead byte in `[0xE0,0xF0)`: decode a
three-byte sequence, rejecting bad continuation bytes, overlong forms
(value below U+0800) and surrogates (U+D800..U+DFFF). -/
def utf8Dec2 (b0 : Nat) : List Nat → Option (Nat × List Nat)
  | b1 :: b2 :: r =>
    let v := (b0 - 224) * 4096 + (b1 - 128) * 64 + (b2 - 128)
    if 128 ≤ b1 ∧ b1 < 192 ∧ 128 ≤ b2 ∧ b2 < 192 ∧ 2048 ≤ v ∧
        (v < 55296 ∨ 57344 ≤ v) then some (v, r)
    else none
  | _ => none

/-- Three continuation bytes after a lead byte `≥ 0xF0`: decode a
four-byte sequence, rejecting lead bytes above `0xF7`, bad continuation
bytes, overlong forms (value below U+10000) and values above U+10FFFF. -/
def utf8Dec3 (b0 : Nat) : List Nat → Option (Nat × List Nat)
  | b1 :: b2 :: b3 :: r =>
    let v := (b0 - 240) * 262144 + (b1 - 128) * 4096 + (b2 - 128) * 64 +
      (b3 - 128)
    if b0 < 248 ∧ 128 ≤ b1 ∧ b1 < 192 ∧ 128 ≤ b2 ∧ b2 < 192 ∧
        128 ≤ b3 ∧ b3 < 192 ∧ 65536 ≤ v ∧ v < 1114112 then some (v, r)
    else none
  | _ => none

/-- Decode one UTF-8-encoded code point from lead byte `b0` followed by
`rest`; `none` where the bytes are not valid strict UTF-8 (a lead byte in
the continuation range `[0x80,0xC0)` falls into `utf8Dec1`, whose `192 ≤
b0` test rejects it). -/
def utf8DecodeOne (b0 : Nat) (rest : List Nat) : Option (Nat × List Nat) :=
  if b0 < 128 then some (b0, rest)
  else if b0 < 224 then utf8Dec1 b0 rest
  else if b0 < 240 then utf8Dec2 b0 rest
  else utf8Dec3 b0 rest

/-- Decode a byte list as strict UTF-8, one code point at a time.  The
first argument is fuel bounding the number of code points; each code point
consumes at least one byte, so fuel equal to the byte count (as supplied
by `utf8Decode` below) never runs out before the bytes do. -/
def utf8DecodeF : Nat → List Nat → Option (List Nat)
  | _, [] => some []
  | 0, _ :: _ => none
  | fuel + 1, b0 :: rest =>
    match utf8DecodeOne b0 rest with
    | none => none
    | some (v, r) => (utf8DecodeF fuel r).map (v :: ·)

/-- Model of Python `bytes.decode('utf-8')` (strict): bytes to code
points, `none` where Python raises `UnicodeDecodeError` — on stray
continuation bytes, truncated or overlong sequences, surrogates
(U+D800..U+DFFF) and values above U+10FFFF. -/
def utf8Decode (l : List Nat) : Option (List Nat) := utf8DecodeF l.length l

/-- Model of `read_string` (line 143): an `i32` length, then
`unpack('{length}s', fp.read(length)).decode('utf-8')`.  A negative length
makes the format string `'-Ns'`, which `struct.unpack` rejects
(`invalidLength`) whatever the remaining bytes; a non-negative length `n`
requires exactly `n` bytes (`truncatedInput` otherwise), which are then
UTF-8-decoded (`invalidEncoding` on failure). -/
def rdString (l : List Nat) : Except DErr (List Nat × List Nat) :=
  match rdI32 l with
  | .error e => .error e
  | .ok (len, l1) =>
    if len < 0 then .error .invalidLength
    else
      let n := len.toNat
      if (l1.take n).length = n then
        match utf8Decode (l1.take n) with
        | some cps => .ok (cps, l1.drop n)
        | none => .error .invalidEncoding
      else .error .truncatedInput

/-- Dispatch through `self.type_handlers` (lines 43..56) for the non-struct
wire types, as invoked from `read_struct` line 152.  Tags 2, 3, 6, 8, 10,
11 run the scalar readers; tags 4, 13, 14, 15, 16 are registered to
`read_double`, `read_map`, `read_set`, `read_list`, `read_enum`, each of
which raises `NotImplementedError` before reading anything; any other tag
has no table entry and the lookup raises `KeyError(t)`.  (Tag 12 is also
registered — to `read_struct` — but the struct branch is handled directly
inside `read_struct_aux` below, mirroring the `t == 12` test of the
source.) -/
def readVal (t : Nat) (l : List Nat) : Except DErr (Value × List Nat) :=
  if t = 2 then
    match rdBool l with
    | .ok (b, r) => .ok (.vbool b, r)
    | .error e => .error e
  else if t = 3 then
    match rdByte l with
    | .ok (b, r) => .ok (.vint b, r)
    | .error e => .error e
  else if t = 4 then rdDouble l
  else if t = 6 then
    match rdI16 l with
    | .ok (z, r) => .ok (.vint z, r)
    | .error e => .error e
  else if t = 8 then
    match rdI32 l with
    | .ok (z, r) => .ok (.vint z, r)
    | .error e => .error e
  else if t = 10 then
    match rdI64 l with
    | .ok (z, r) => .ok (.vint z, r)
    | .error e => .error e
  else if t = 11 then
    match rdString l with
    | .ok (s, r) => .ok (.vstr s, r)
    | .error e => .error e
  else if t = 13 ∨ t = 14 ∨ t = 15 ∨ t = 16 then .error .notImplemented
  else .error (.unknownType t)

/-- Mutable state of one `ThriftDecoder` instance during a decode: the
remaining bytes of `self.fp`, the insertion-ordered `self.structs` table,
and `self.struct_name_counter`. -/
structure DecSt where
  fp : List Nat
  structs : List (List Nat × FieldList)
  counter : Nat
deriving DecidableEq, Repr

/-- Code points of a Lean string literal, modelling a Python `str`
constant. -/
def strLit (s : String) : List Nat := s.data.map Char.toNat

/-- Synthetic name `'UnknownStruct{}'.format(n)` (line 155). -/
def mkName (n : Nat) : List Nat := strLit ("UnknownStruct" ++ toString n)

/-- Model of `read_struct` (lines 147..164), with explicit fuel (the
source recurses without bound; each iteration and each nested-struct
recursion consumes fuel, and fuel exhaustion yields the artificial
`outOfFuel`).  One step: `read_type` (a byte); `0` terminates the struct,
returning the accumulated tuple; otherwise `read_field_id` (an `i16`),
then dispatch on the tag.  For tag 12 the nested struct is read first by
recursion (sharing the instance's `structs` table and counter), and only
after it returns is the next synthetic name allocated — the name recorded
for a nested struct therefore uses the counter value reached after all of
its own nested structs were named.  The field value stored for tag 12 is
the synthetic name. -/
def read_struct_aux (fuel : Nat) (acc : FieldList) (st : DecSt) :
    Except DErr (FieldList × DecSt) :=
  match fuel with
  | 0 => .error .outOfFuel
  | fuel + 1 =>
    match st.fp with
    | [] => .error .truncatedInput
    | t :: l1 =>
      if t = 0 then .ok (acc, { st with fp := l1 })
      else
        match rdI16 l1 with
        | .error e => .error e
        | .ok (fid, l2) =>
          if t = 12 then
            match read_struct_aux fuel [] { st with fp := l2 } with
            | .error e => .error e
            | .ok (inner, st2) =>
              let name := mkName st2.counter
              read_struct_aux fuel (acc ++ [(fid, t, Value.vstr name)])
                { st2 with counter := st2.counter + 1,
                           structs := st2.structs ++ [(name, inner)] }
          else
            match readVal t l2 with
            | .error e => .error e
            | .ok (v, l3) =>
              read_struct_aux fuel (acc ++ [(fid, t, v)]) { st with fp := l3 }

/-- `read_struct` proper: the loop starts with an empty local `fields`
list. -/
def read_struct (fuel : Nat) (st : DecSt) : Except DErr (FieldList × DecSt) :=
  read_struct_aux fuel [] st

/-- Result of one successful `decode` call: the envelope attributes set by
`read_header` (lines 107..117), the top-level field tuple, the `structs`
table, and whether the version-mismatch warning was printed (line 111). -/
structure DecodeOut where
  version : Int
  warned : Bool
  message_type : Int
  method_name : List Nat
  sequence_id : Int
  fields : FieldList
  structs : List (List Nat × FieldList)
deriving DecidableEq, Repr

/-- `read_header` lines 114..117: after version and message type, read the
method name (`read_string`), the sequence id (`read_i32`), then the
top-level struct on a fresh instance state (empty `structs`, counter 0, as
set by `__init__`). -/
def decodeAfterKind (fuel : Nat) (l : List Nat) :
    Except DErr ((List Nat × Int × FieldList × List (List Nat × FieldList)) × List Nat) :=
  match rdString l with
  | .error e => .error e
  | .ok (mn, l2) =>
    match rdI32 l2 with
    | .error e => .error e
    | .ok (sq, l3) =>
      match read_struct fuel ⟨l3, [], 0⟩ with
      | .error e => .error e
      | .ok (fs, st) => .ok ((mn, sq, fs, st.structs), st.fp)

/-- `read_header` line 113 onward: read the `i16` message type — stored
without any validation — then the rest of the header and body. -/
def decodeAfterVersion (fuel : Nat) (l : List Nat) :
    Except DErr ((Int × List Nat × Int × FieldList × List (List Nat × FieldList)) × List Nat) :=
  match rdI16 l with
  | .error e => .error e
  | .ok (mt, l1) =>
    match decodeAfterKind fuel l1 with
    | .error e => .error e
    | .ok ((mn, sq, fs, sts), rest) => .ok ((mt, mn, sq, fs, sts), rest)

/-- Model of `decode` + `read_header` (lines 99..117) on a buffer: read the
`i16` version, set the warning flag when it differs from
`unpack('!h', b'\x80\x01') = -32767` (the decode continues either way),
then the message type, method name, sequence id and top-level struct.
Returns the decode result together with the bytes left unread in the
buffer. -/
def decode (fuel : Nat) (buf : List Nat) : Except DErr (DecodeOut × List Nat) :=
  match rdI16 buf with
  | .error e => .error e
  | .ok (ver, l1) =>
    match decodeAfterVersion fuel l1 with
    | .error e => .error e
    | .ok ((mt, mn, sq, fs, sts), rest) =>
      .ok ({ version := ver, warned := ver != -32767, message_type := mt,
             method_name := mn, sequence_id := sq, fields := fs,
             structs := sts }, rest)

/-- Model of the `self.message_types` mapping `{1: 'call', 2: 'reply',
3: 'oneway'}` (lines 39..41); `none` models the `KeyError` a lookup of any
other key raises (which in the source can only happen in `__str__`,
i.e. after decoding). -/
def message_types (k : Int) : Option (List Nat) :=
  if k = 1 then some (strLit "call")
  else if k = 2 then some (strLit "reply")
  else if k = 3 then some (strLit "oneway")
  else none

/-- C1: decoding `80 01 00 01 00 00 00 04 70 69 6E 67 00 00 00 2A 00`
succeeds and yields version `-32767`, message type `1` (whose registered
kind name is `call`), method name `ping`, sequence id `42`, an empty field
list and an empty struct table, with no warning, consuming the whole
buffer (the struct body is the single stop byte). -/
theorem C1_end_to_end :
    decode 32 [0x80, 0x01, 0x00, 0x01, 0x00, 0x00, 0x00, 0x04,
               0x70, 0x69, 0x6E, 0x67, 0x00, 0x00, 0x00, 0x2A, 0x00] =
      .ok ({ version := -32767, warned := false, message_type := 1,
             method_name := strLit "ping", sequence_id := 42,
             fields := [], structs := [] }, [])
    ∧ message_types 1 = some (strLit "call") := by
  constructor
  · rfl
  · rfl

/-- C3, counterexample: the claim states that synthetic names are assigned
in first-discovery (depth-first pre-order) order.  On the spec's own
scenario — a top-level struct with two sibling struct fields (ids 1 and 3),
each containing one nested struct field (ids 2 and 4) — the first struct
discovered is the sibling at field id 1, so under first-discovery order it
would be named `UnknownStruct0`.  The code instead names a struct only
after its body has been fully read, so the sibling at id 1 is named
`UnknownStruct1` (its own inner struct received `UnknownStruct0` first),
and the decoded field list differs from the first-discovery one. -/
theorem C3_counterexample :
    read_struct 32 ⟨[12, 0, 1, 12, 0, 2, 0, 0, 12, 0, 3, 12, 0, 4, 0, 0, 0], [], 0⟩ =
      .ok ([(1, 12, Value.vstr (mkName 1)), (3, 12, Value.vstr (mkName 3))],
           { fp := [],
             structs := [(mkName 0, []),
                         (mkName 1, [(2, 12, Value.vstr (mkName 0))]),
                         (mkName 2, []),
                         (mkName 3, [(4, 12, Value.vstr (mkName 2))])],
             counter := 4 })
    ∧ [(1, 12, Value.vstr (mkName 1)), (3, 12, Value.vstr (mkName 3))] ≠
        [(1, 12, Value.vstr (mkName 0)), (3, 12, Value.vstr (mkName 2))] := by
  constructor
  · rfl
  · decide

/-- C3, amended: the names come from one decode-scoped counter starting at
0 that increases monotonically in completion (depth-first post-order)
order — not per-struct-local and not first-discovery order.  On the
scenario of the claim the four structs get four pairwise distinct names:
the inner struct of the first sibling is `UnknownStruct0`, the first
sibling `UnknownStruct1`, the inner struct of the second sibling
`UnknownStruct2`, the second sibling `UnknownStruct3`, and the struct
table lists them in that (completion) order. -/
theorem C3_postorder_naming :
    read_struct 32 ⟨[12, 0, 1, 12, 0, 2, 0, 0, 12, 0, 3, 12, 0, 4, 0, 0, 0], [], 0⟩ =
      .ok ([(1, 12, Value.vstr (mkName 1)), (3, 12, Value.vstr (mkName 3))],
           { fp := [],
             structs := [(mkName 0, []),
                         (mkName 1, [(2, 12, Value.vstr (mkName 0))]),
                         (mkName 2, []),
                         (mkName 3, [(4, 12, Value.vstr (mkName 2))])],
             counter := 4 })
    ∧ [mkName 0, mkName 1, mkName 2, mkName 3].Nodup := by
  constructor
  · rfl
  · decide

/-- C2: the readers registered for double (tag 4), map (13), set (14),
list (15) and enum (16) do not implement the specified behaviour — each
raises `NotImplementedError` unconditionally, before reading a single
byte.  In particular a well-formed message carrying a list field (element
type `i32`, count 0) fails to decode, where the claim requires an empty
sequence to be returned. -/
theorem C2_unimplemented_types (l : List Nat) :
    readVal 4 l = .error .notImplemented
    ∧ readVal 13 l = .error .notImplemented
    ∧ readVal 14 l = .error .notImplemented
    ∧ readVal 15 l = .error .notImplemented
    ∧ readVal 16 l = .error .notImplemented
    ∧ decode 32 [0x80, 1, 0, 1, 0, 0, 0, 1, 97, 0, 0, 0, 42,
                 15, 0, 1, 8, 0, 0, 0, 0, 0] = .error .notImplemented := by
  refine ⟨rfl, rfl, rfl, rfl, rfl, rfl⟩

/-- C5, counterexample: the claim states that a message-kind value outside
`{1,2,3}` makes the decode fail with `UnknownMessageKind` at decode time.
The code performs no such check: a message whose kind field is `7` decodes
successfully, storing `message_type = 7`. -/
theorem C5_counterexample :
    decode 32 [0x80, 1, 0, 7, 0, 0, 0, 1, 97, 0, 0, 0, 42, 0] =
      .ok ({ version := -32767, warned := false, message_type := 7,
             method_name := [97], sequence_id := 42, fields := [],
             structs := [] }, []) := by
  rfl

/-- C5, amended: the `i16` message-kind value is stored unvalidated — for
any kind bytes `hi lo`, the decode result is exactly the result for kind
`1` with the `message_type` field replaced by the signed 16-bit value of
`hi lo`, so no kind value can make the decode fail; the
`{1: call, 2: reply, 3: oneway}` mapping exists but is only consulted when
formatting output, where a kind outside `{1,2,3}` has no entry (a
`KeyError` at print time, not decode time). -/
theorem C5_kind_unvalidated (fuel hi lo : Nat) (rest : List Nat) :
    decode fuel (0x80 :: 1 :: hi :: lo :: rest) =
      (fun p => ({ p.1 with message_type := toSigned (hi * 256 + lo) 32768 }, p.2)) <$>
        decode fuel (0x80 :: 1 :: 0 :: 1 :: rest)
    ∧ message_types 7 = none := by
  constructor
  · simp only [decode, rdI16, decodeAfterVersion]
    cases h : decodeAfterKind fuel rest with
    | error e => rfl
    | ok p =>
      obtain ⟨⟨mn, sq, fs, sts⟩, r⟩ := p
      rfl
  · rfl

/-- C6, counterexample: the claim states the `UnknownType` failure reports
the byte offset at which the offending tag was read.  Two messages in
which the unregistered tag `1` occurs at different byte offsets (offset 13,
right after the header, and offset 17, after a decoded bool field) produce
exactly the same error value `KeyError(1)` — the offset is not part of the
failure. -/
theorem C6_counterexample :
    decode 32 [0x80, 1, 0, 1, 0, 0, 0, 1, 97, 0, 0, 0, 42,
               1, 0, 0] = .error (.unknownType 1)
    ∧ decode 32 [0x80, 1, 0, 1, 0, 0, 0, 1, 97, 0, 0, 0, 42,
                 2, 0, 1, 1, 1, 0, 0] = .error (.unknownType 1)
    ∧ decode 32 [0x80, 1, 0, 1, 0, 0, 0, 1, 97, 0, 0, 0, 42,
                 1, 0, 0] =
      decode 32 [0x80, 1, 0, 1, 0, 0, 0, 1, 97, 0, 0, 0, 42,
                 2, 0, 1, 1, 1, 0, 0] := by
  refine ⟨rfl, rfl, rfl⟩

/-- C10: reading a string whose `i32` length prefix is `0` succeeds with
the empty string and consumes exactly the four length bytes, whatever
bytes follow. -/
theorem C10_empty_string (rest : List Nat) :
    rdString (0 :: 0 :: 0 :: 0 :: rest) = .ok ([], rest) := by
  rfl

/-!
Model of the class-attribute sharing relevant to claim C9.  In the source,
`type_handlers` (line 24) is a class attribute: the `self.type_handlers[k]
= self.read_xxx` statements in `__init__` (lines 43..56) mutate the single
dict shared by all `ThriftDecoder` instances, storing methods bound to the
instance just constructed.  So at any time every dispatched handler
executes on the most recently constructed instance, whichever instance's
`read_struct` performs the dispatch.  The direct (non-dispatched) calls —
`read_type`, `read_field_id` in `read_struct`, and the header reads in
`read_header` — execute on `self` as usual, and `self.structs` /
`self.struct_name_counter` / `self.fp` are genuine per-instance state.

The model below has two instances, `A` and `B` (selected by a `Bool`,
`false` = A, `true` = B), plus the shared binding `bound` recording which
instance the handler table currently points at. -/

/-- Per-instance state: `self.fp` (`none` before `decode` opens the file),
`self.structs`, `self.struct_name_counter`. -/
structure Inst where
  fp : Option (List Nat)
  structs : List (List Nat × FieldList)
  counter : Nat
deriving DecidableEq, Repr

/-- Two `ThriftDecoder` instances plus the shared class-level handler
binding: `bound` is the instance whose bound methods currently populate
`type_handlers`. -/
structure World where
  bound : Bool
  instA : Inst
  instB : Inst
deriving DecidableEq, Repr

def getInst (who : Bool) (w : World) : Inst :=
  if who then w.instB else w.instA

def setInst (who : Bool) (i : Inst) (w : World) : World :=
  if who then { w with instB := i } else { w with instA := i }

/-- Model of `ThriftDecoder.__init__`: resets the chosen instance's own
attributes and re-points the shared `type_handlers` dict at it. -/
def construct (who : Bool) (w : World) : World :=
  { setInst who ⟨none, [], 0⟩ w with bound := who }

/-- Run a byte-level reader as a method of instance `who`: it reads from
`who`'s file.  If `who` has not opened a file yet (`fp = None`),
`self.fp.read(...)` raises `AttributeError`. -/
def wRead (who : Bool) (f : List Nat → Except DErr (α × List Nat))
    (w : World) : Except DErr (α × World) :=
  match (getInst who w).fp with
  | none => .error .attributeError
  | some l =>
    match f l with
    | .error e => .error e
    | .ok (x, l2) => .ok (x, setInst who { getInst who w with fp := some l2 } w)

/-- `read_struct` in the two-instance world, executing as a method of
instance `self`.  `read_type` and `read_field_id` are direct calls on
`self`; the per-field value is obtained through the shared
`type_handlers`, i.e. runs as a method of the instance `w.bound`.  For tag
12 the dispatched handler is `read_struct` bound to `w.bound`, so the
nested struct is read with `w.bound` as its `self`; the synthetic-name
bookkeeping after the call (lines 154..158) still runs on the outer
`self`.  Tags 4, 13..16 raise `NotImplementedError` without touching any
file; unregistered tags raise `KeyError` at the table lookup. -/
def wread_struct_aux (fuel : Nat) (self : Bool) (acc : FieldList)
    (w : World) : Except DErr (FieldList × World) :=
  match fuel with
  | 0 => .error .outOfFuel
  | fuel + 1 =>
    match wRead self rdByte w with
    | .error e => .error e
    | .ok (t, w) =>
      if t = 0 then .ok (acc, w)
      else
        match wRead self rdI16 w with
        | .error e => .error e
        | .ok (fid, w) =>
          if t = 12 then
            match wread_struct_aux fuel w.bound [] w with
            | .error e => .error e
            | .ok (inner, w2) =>
              let i := getInst self w2
              let name := mkName i.counter
              let w3 := setInst self
                { i with counter := i.counter + 1,
                         structs := i.structs ++ [(name, inner)] } w2
              wread_struct_aux fuel self (acc ++ [(fid, t, Value.vstr name)]) w3
          else if t = 4 ∨ t = 13 ∨ t = 14 ∨ t = 15 ∨ t = 16 then
            .error .notImplemented
          else if t = 2 ∨ t = 3 ∨ t = 6 ∨ t = 8 ∨ t = 10 ∨ t = 11 then
            match wRead w.bound (readVal t) w with
            | .error e => .error e
            | .ok (v, w2) =>
              wread_struct_aux fuel self (acc ++ [(fid, t, v)]) w2
          else .error (.unknownType t)

/-- `decode` + `read_header` of instance `self` in the two-instance world:
open `self`'s file on the buffer, then the four direct header reads on
`self`, then the struct walk. -/
def wdecode (self : Bool) (fuel : Nat) (buf : List Nat) (w : World) :
    Except DErr (DecodeOut × World) :=
  let w := setInst self { getInst self w with fp := some buf } w
  match wRead self rdI16 w with
  | .error e => .error e
  | .ok (ver, w) =>
    match wRead self rdI16 w with
    | .error e => .error e
    | .ok (mt, w) =>
      match wRead self rdString w with
      | .error e => .error e
      | .ok (mn, w) =>
        match wRead self rdI32 w with
        | .error e => .error e
        | .ok (sq, w) =>
          match wread_struct_aux fuel self [] w with
          | .error e => .error e
          | .ok (fs, w) =>
            .ok ({ version := ver, warned := ver != -32767,
                   message_type := mt, method_name := mn,
                   sequence_id := sq, fields := fs,
                   structs := (getInst self w).structs }, w)

/-- A fresh process: no instance constructed yet, nothing bound. -/
def world0 : World := ⟨false, ⟨none, [], 0⟩, ⟨none, [], 0⟩⟩

/-- C9: decode invocations are not isolated.  With decoder `A` alone
(constructed, then run on a valid one-bool-field message) the decode
succeeds.  If a second decoder `B` is constructed between `A`'s
construction and `A`'s decode — with no other change whatsoever — the very
same decode of the very same buffer fails: the shared class-level
`type_handlers` dict now holds methods bound to `B`, so `A`'s field
dispatch executes `B.read_bool`, which dereferences `B.fp = None` and
raises `AttributeError`.  Constructing another decoder therefore does
change the dispatch behaviour and the result of an existing instance. -/
theorem C9_shared_dispatch :
    wdecode false 32
      [0x80, 1, 0, 1, 0, 0, 0, 1, 97, 0, 0, 0, 42, 2, 0, 1, 1, 0]
      (construct false world0) =
      .ok ({ version := -32767, warned := false, message_type := 1,
             method_name := [97], sequence_id := 42,
             fields := [(1, 2, Value.vbool true)], structs := [] },
           ⟨false, ⟨some [], [], 0⟩, ⟨none, [], 0⟩⟩)
    ∧ wdecode false 32
      [0x80, 1, 0, 1, 0, 0, 0, 1, 97, 0, 0, 0, 42, 2, 0, 1, 1, 0]
      (construct true (construct false world0)) =
      .error .attributeError := by
  constructor
  · rfl
  · rfl

/-- C7: a version mismatch is not fatal.  Replacing the expected version
bytes `80 01` by `00 01` in any buffer yields exactly the same decode
result — same message kind, method name, sequence id, fields, struct table
and leftover bytes, and the same failure if the rest fails — except that
the stored version is `1` and the mismatch warning is recorded. -/
theorem C7_version_mismatch (fuel : Nat) (suffix : List Nat) :
    decode fuel (0 :: 1 :: suffix) =
      (fun p => ({ p.1 with version := 1, warned := true }, p.2)) <$>
        decode fuel (0x80 :: 1 :: suffix) := by
  simp only [decode, rdI16]
  cases h : decodeAfterVersion fuel suffix with
  | error e => rfl
  | ok p =>
    obtain ⟨⟨mt, mn, sq, fs, sts⟩, r⟩ := p
    rfl

/-- C6, amended: a field whose type-tag byte has no `type_handlers` entry
(any tag outside `{0, 2, 3, 4, 6, 8, 10, 11, 12, 13, 14, 15, 16}`) makes
the struct decode fail with a `KeyError` carrying the offending code — but
not the byte offset, which is absent from the failure.  The field id is
read before the dispatch, so the failure surfaces after the two field-id
bytes. -/
theorem C6_unknown_tag (fuel t a b : Nat) (rest : List Nat)
    (acc : FieldList) (sts : List (List Nat × FieldList)) (ctr : Nat)
    (h0 : t ≠ 0) (h2 : t ≠ 2) (h3 : t ≠ 3) (h4 : t ≠ 4) (h6 : t ≠ 6)
    (h8 : t ≠ 8) (h10 : t ≠ 10) (h11 : t ≠ 11) (h12 : t ≠ 12)
    (h13 : t ≠ 13) (h14 : t ≠ 14) (h15 : t ≠ 15) (h16 : t ≠ 16) :
    read_struct_aux (fuel + 1) acc ⟨t :: a :: b :: rest, sts, ctr⟩ =
      .error (.unknownType t) := by
  simp [read_struct_aux, rdI16, readVal, h0, h2, h3, h4, h6, h8, h10, h11,
    h12, h13, h14, h15, h16]

/-- Witness for `C6_unknown_tag`: the reserved tag `1` (followed by a
field id) fails with `KeyError(1)`. -/
theorem C6_unknown_tag_witness :
    read_struct_aux 1 [] ⟨[1, 0, 0], [], 0⟩ = .error (.unknownType 1) :=
  C6_unknown_tag 0 1 0 0 [] [] [] 0 (by decide) (by decide) (by decide)
    (by decide) (by decide) (by decide) (by decide) (by decide) (by decide)
    (by decide) (by decide) (by decide) (by decide)

/-- C4: behaviour of the string reader.  (1) Whenever the four length
bytes encode a negative `i32` (high bit of the first byte set), the read
fails with the invalid-length error, whatever follows; (2) length `5`
followed by the five bytes of `"hello"` yields `"hello"` with nothing
left; (3) length `5` followed by only three bytes fails with the
truncated-input error; (4) a length-1 string whose byte is `FF` (not valid
UTF-8) fails with the invalid-encoding error. -/
theorem C4_string_reader (b0 b1 b2 b3 : Nat) (rest : List Nat)
    (hb0 : 128 ≤ b0) (hb0u : b0 < 256) (hb1 : b1 < 256) (hb2 : b2 < 256)
    (hb3 : b3 < 256) :
    rdString (b0 :: b1 :: b2 :: b3 :: rest) = .error .invalidLength
    ∧ rdString [0, 0, 0, 5, 104, 101, 108, 108, 111] =
        .ok (strLit "hello", [])
    ∧ rdString [0, 0, 0, 5, 104, 101, 108] = .error .truncatedInput
    ∧ rdString [0, 0, 0, 1, 255] = .error .invalidEncoding := by
  refine ⟨?_, by rfl, by rfl, by rfl⟩
  have hneg : toSigned (b0 * 16777216 + b1 * 65536 + b2 * 256 + b3)
      2147483648 < 0 := by
    have h1 : ¬ (b0 * 16777216 + b1 * 65536 + b2 * 256 + b3 < 2147483648) := by
      omega
    simp only [toSigned, if_neg h1]
    push_cast
    omega
  simp only [rdString, rdI32, if_pos hneg]

/-- Witness for `C4_string_reader`: the length bytes `FF FF FF FB`
(`i32 = -5`) make the string read fail with the invalid-length error. -/
theorem C4_string_reader_witness :
    rdString [255, 255, 255, 251] = .error .invalidLength
    ∧ rdString [0, 0, 0, 5, 104, 101, 108, 108, 111] =
        .ok (strLit "hello", [])
    ∧ rdString [0, 0, 0, 5, 104, 101, 108] = .error .truncatedInput
    ∧ rdString [0, 0, 0, 1, 255] = .error .invalidEncoding :=
  C4_string_reader 255 255 255 251 [] (by decide) (by decide) (by decide)
    (by decide) (by decide)

/-!
Canonical big-endian encodings, as the round-trip claim quantifies over
them: the unique wire form the Thrift Binary Protocol assigns to each
representable value (two's complement for the fixed-width integers, an
`i32` byte count followed by UTF-8 bytes for strings).
-/

/-- Canonical 2-byte big-endian two's-complement encoding of an `i16`
value. -/
def enc16 (v : Int) : List Nat :=
  [(v % 65536).toNat / 256, (v % 65536).toNat % 256]

/-- Canonical 4-byte big-endian two's-complement encoding of an `i32`
value. -/
def enc32 (v : Int) : List Nat :=
  [(v % 4294967296).toNat / 16777216, (v % 4294967296).toNat / 65536 % 256,
   (v % 4294967296).toNat / 256 % 256, (v % 4294967296).toNat % 256]

/-- Canonical 8-byte big-endian two's-complement encoding of an `i64`
value. -/
def enc64 (v : Int) : List Nat :=
  [(v % 18446744073709551616).toNat / 72057594037927936,
   (v % 18446744073709551616).toNat / 281474976710656 % 256,
   (v % 18446744073709551616).toNat / 1099511627776 % 256,
   (v % 18446744073709551616).toNat / 4294967296 % 256,
   (v % 18446744073709551616).toNat / 16777216 % 256,
   (v % 18446744073709551616).toNat / 65536 % 256,
   (v % 18446744073709551616).toNat / 256 % 256,
   (v % 18446744073709551616).toNat % 256]

/-- A Unicode scalar value: a code point a Python `str` can hold that has
a UTF-8 encoding (below U+110000 and not a surrogate). -/
def validCp (v : Nat) : Prop := v < 1114112 ∧ (v < 55296 ∨ 57344 ≤ v)

instance (v : Nat) : Decidable (validCp v) := by unfold validCp; infer_instance

/-- Canonical UTF-8 encoding of one code point. -/
def utf8EncodeCp (v : Nat) : List Nat :=
  if v < 128 then [v]
  else if v < 2048 then [192 + v / 64, 128 + v % 64]
  else if v < 65536 then
    [224 + v / 4096, 128 + v / 64 % 64, 128 + v % 64]
  else
    [240 + v / 262144, 128 + v / 4096 % 64, 128 + v / 64 % 64, 128 + v % 64]

/-- Canonical UTF-8 encoding of a string (list of code points). -/
def utf8Encode (cs : List Nat) : List Nat := (cs.map utf8EncodeCp).flatten

theorem rdI16_enc (v : Int) (rest : List Nat) (h1 : -32768 ≤ v)
    (h2 : v < 32768) : rdI16 (enc16 v ++ rest) = .ok (v, rest) := by
  have key : toSigned (v % 65536).toNat 32768 = v := by
    simp only [toSigned]
    split_ifs <;> omega
  simp only [enc16, List.cons_append, List.nil_append, rdI16]
  have hu : (v % 65536).toNat / 256 * 256 + (v % 65536).toNat % 256 =
      (v % 65536).toNat := by omega
  rw [hu, key]

theorem rdI32_enc (v : Int) (rest : List Nat) (h1 : -2147483648 ≤ v)
    (h2 : v < 2147483648) : rdI32 (enc32 v ++ rest) = .ok (v, rest) := by
  have key : toSigned (v % 4294967296).toNat 2147483648 = v := by
    simp only [toSigned]
    split_ifs <;> omega
  simp only [enc32, List.cons_append, List.nil_append, rdI32]
  have hu : (v % 4294967296).toNat / 16777216 * 16777216 +
      (v % 4294967296).toNat / 65536 % 256 * 65536 +
      (v % 4294967296).toNat / 256 % 256 * 256 +
      (v % 4294967296).toNat % 256 = (v % 4294967296).toNat := by omega
  rw [hu, key]

theorem rdI64_enc (v : Int) (rest : List Nat)
    (h1 : -9223372036854775808 ≤ v) (h2 : v < 9223372036854775808) :
    rdI64 (enc64 v ++ rest) = .ok (v, rest) := by
  have key : toSigned (v % 18446744073709551616).toNat 9223372036854775808 = v := by
    simp only [toSigned]
    split_ifs <;> omega
  simp only [enc64, List.cons_append, List.nil_append, rdI64]
  have hu : (v % 18446744073709551616).toNat / 72057594037927936 * 72057594037927936 +
      (v % 18446744073709551616).toNat / 281474976710656 % 256 * 281474976710656 +
      (v % 18446744073709551616).toNat / 1099511627776 % 256 * 1099511627776 +
      (v % 18446744073709551616).toNat / 4294967296 % 256 * 4294967296 +
      (v % 18446744073709551616).toNat / 16777216 % 256 * 16777216 +
      (v % 18446744073709551616).toNat / 65536 % 256 * 65536 +
      (v % 18446744073709551616).toNat / 256 % 256 * 256 +
      (v % 18446744073709551616).toNat % 256 =
      (v % 18446744073709551616).toNat := by omega
  rw [hu, key]

theorem utf8DecodeF_encCp (fuel v : Nat) (hv : validCp v) (tail : List Nat) :
    utf8DecodeF (fuel + 1) (utf8EncodeCp v ++ tail) =
      (utf8DecodeF fuel tail).map (v :: ·) := by
  obtain ⟨hv1, hv2⟩ := hv
  by_cases h1 : v < 128
  · simp only [utf8EncodeCp, if_pos h1, List.cons_append, List.nil_append,
      utf8DecodeF, utf8DecodeOne, if_pos h1]
  · by_cases h2 : v < 2048
    · simp only [utf8EncodeCp, if_neg h1, if_pos h2, List.cons_append,
        List.nil_append]
      have hone : utf8DecodeOne (192 + v / 64) ((128 + v % 64) :: tail) =
          some (v, tail) := by
        have c0 : ¬ (192 + v / 64 < 128) := by omega
        have c1 : 192 + v / 64 < 224 := by omega
        simp only [utf8DecodeOne, if_neg c0, if_pos c1, utf8Dec1]
        have c2 : 192 ≤ 192 + v / 64 ∧ 128 ≤ 128 + v % 64 ∧
            128 + v % 64 < 192 := by omega
        rw [if_pos c2]
        have hval : (192 + v / 64 - 192) * 64 + (128 + v % 64 - 128) = v := by
          omega
        rw [hval, if_pos (by omega : 128 ≤ v)]
      simp only [utf8DecodeF, hone]
    · by_cases h3 : v < 65536
      · simp only [utf8EncodeCp, if_neg h1, if_neg h2, if_pos h3,
          List.cons_append, List.nil_append]
        have hone : utf8DecodeOne (224 + v / 4096)
            ((128 + v / 64 % 64) :: (128 + v % 64) :: tail) =
            some (v, tail) := by
          have c0 : ¬ (224 + v / 4096 < 128) := by omega
          have c1 : ¬ (224 + v / 4096 < 224) := by omega
          have c2 : 224 + v / 4096 < 240 := by omega
          simp only [utf8DecodeOne, if_neg c0, if_neg c1, if_pos c2, utf8Dec2]
          have hval : (224 + v / 4096 - 224) * 4096 +
              (128 + v / 64 % 64 - 128) * 64 + (128 + v % 64 - 128) = v := by
            omega
          rw [hval]
          have c3 : 128 ≤ 128 + v / 64 % 64 ∧ 128 + v / 64 % 64 < 192 ∧
              128 ≤ 128 + v % 64 ∧ 128 + v % 64 < 192 ∧ 2048 ≤ v ∧
              (v < 55296 ∨ 57344 ≤ v) := by
            refine ⟨by omega, by omega, by omega, by omega, by omega, hv2⟩
          rw [if_pos c3]
        simp only [utf8DecodeF, hone]
      · simp only [utf8EncodeCp, if_neg h1, if_neg h2, if_neg h3,
          List.cons_append, List.nil_append]
        have hone : utf8DecodeOne (240 + v / 262144)
            ((128 + v / 4096 % 64) :: (128 + v / 64 % 64) ::
              (128 + v % 64) :: tail) = some (v, tail) := by
          have c0 : ¬ (240 + v / 262144 < 128) := by omega
          have c1 : ¬ (240 + v / 262144 < 224) := by omega
          have c2 : ¬ (240 + v / 262144 < 240) := by omega
          simp only [utf8DecodeOne, if_neg c0, if_neg c1, if_neg c2, utf8Dec3]
          have hval : (240 + v / 262144 - 240) * 262144 +
              (128 + v / 4096 % 64 - 128) * 4096 +
              (128 + v / 64 % 64 - 128) * 64 + (128 + v % 64 - 128) = v := by
            omega
          rw [hval]
          have c3 : 240 + v / 262144 < 248 ∧ 128 ≤ 128 + v / 4096 % 64 ∧
              128 + v / 4096 % 64 < 192 ∧ 128 ≤ 128 + v / 64 % 64 ∧
              128 + v / 64 % 64 < 192 ∧ 128 ≤ 128 + v % 64 ∧
              128 + v % 64 < 192 ∧ 65536 ≤ v ∧ v < 1114112 := by
            refine ⟨by omega, by omega, by omega, by omega, by omega,
              by omega, by omega, by omega, hv1⟩
          rw [if_pos c3]
        simp only [utf8DecodeF, hone]

theorem utf8DecodeF_encode (cs : List Nat) : ∀ fuel : Nat,
    (∀ c ∈ cs, validCp c) → cs.length ≤ fuel →
    utf8DecodeF fuel (utf8Encode cs) = some cs := by
  induction cs with
  | nil =>
    intro fuel _ _
    cases fuel <;> rfl
  | cons c cs ih =>
    intro fuel hval hlen
    cases fuel with
    | zero => simp at hlen
    | succ f =>
      have he : utf8Encode (c :: cs) = utf8EncodeCp c ++ utf8Encode cs := by
        simp [utf8Encode]
      rw [he, utf8DecodeF_encCp f c (hval c (by simp)) (utf8Encode cs),
        ih f (fun x hx => hval x (by simp [hx])) (by simp at hlen; omega)]
      rfl

theorem length_le_utf8Encode (cs : List Nat) :
    cs.length ≤ (utf8Encode cs).length := by
  induction cs with
  | nil => simp [utf8Encode]
  | cons c cs ih =>
    have he : utf8Encode (c :: cs) = utf8EncodeCp c ++ utf8Encode cs := by
      simp [utf8Encode]
    have h1 : 1 ≤ (utf8EncodeCp c).length := by
      unfold utf8EncodeCp
      split_ifs <;> simp
    rw [he, List.length_append]
    simp only [List.length_cons]
    omega

theorem utf8_roundtrip (cs : List Nat) (h : ∀ c ∈ cs, validCp c) :
    utf8Decode (utf8Encode cs) = some cs :=
  utf8DecodeF_encode cs (utf8Encode cs).length h (length_le_utf8Encode cs)

theorem rdString_enc (cs rest : List Nat) (hval : ∀ c ∈ cs, validCp c)
    (hlen : (utf8Encode cs).length < 2147483648) :
    rdString (enc32 ((utf8Encode cs).length : Int) ++ (utf8Encode cs ++ rest)) =
      .ok (cs, rest) := by
  have h32 : rdI32 (enc32 ((utf8Encode cs).length : Int) ++
      (utf8Encode cs ++ rest)) =
      .ok (((utf8Encode cs).length : Int), utf8Encode cs ++ rest) :=
    rdI32_enc _ _ (by omega) (by exact_mod_cast hlen)
  simp only [rdString, h32]
  rw [if_neg (by omega : ¬ ((utf8Encode cs).length : Int) < 0)]
  have ht : (((utf8Encode cs).length : Int)).toNat = (utf8Encode cs).length :=
    Int.toNat_natCast _
  rw [ht, List.take_left, List.drop_left]
  simp [utf8_roundtrip cs hval]

/-- C8, counterexample: the claim includes `double` among the wire types
whose canonical encoding round-trips.  The canonical IEEE-754 big-endian
encoding of `0.0` is eight zero bytes, but the double reader raises
`NotImplementedError` before reading them, so it returns no value at all —
in particular not `0.0`. -/
theorem C8_counterexample :
    rdDouble [0, 0, 0, 0, 0, 0, 0, 0] = .error .notImplemented := rfl

/-- C8, amended: for the scalar wire types the decoder implements — bool,
byte, i16, i32, i64 and string, i.e. all of the claim's list except
double, whose reader unconditionally fails — decoding the canonical
big-endian encoding of any representable value returns exactly that value
and consumes exactly its bytes: a byte `b < 256` is returned as is; the
bool bytes `01`/`00` decode to true/false; an i16/i32/i64 in range decodes
from its two's-complement big-endian bytes; and a string of Unicode scalar
values whose UTF-8 form fits an `i32` length decodes from that length
followed by its UTF-8 bytes.  In particular `FF FF FF FF` decodes to the
i32 `-1`. -/
theorem C8_scalar_roundtrip :
    (∀ (b : Nat) (rest : List Nat), b < 256 → rdByte (b :: rest) = .ok (b, rest))
    ∧ (∀ rest : List Nat, rdBool (1 :: rest) = .ok (true, rest)
        ∧ rdBool (0 :: rest) = .ok (false, rest))
    ∧ (∀ (v : Int) (rest : List Nat), -32768 ≤ v → v < 32768 →
        rdI16 (enc16 v ++ rest) = .ok (v, rest))
    ∧ (∀ (v : Int) (rest : List Nat), -2147483648 ≤ v → v < 2147483648 →
        rdI32 (enc32 v ++ rest) = .ok (v, rest))
    ∧ rdI32 [255, 255, 255, 255] = .ok (-1, [])
    ∧ (∀ (v : Int) (rest : List Nat), -9223372036854775808 ≤ v →
        v < 9223372036854775808 → rdI64 (enc64 v ++ rest) = .ok (v, rest))
    ∧ (∀ cs rest : List Nat, (∀ c ∈ cs, validCp c) →
        (utf8Encode cs).length < 2147483648 →
        rdString (enc32 ((utf8Encode cs).length : Int) ++
          (utf8Encode cs ++ rest)) = .ok (cs, rest)) := by
  refine ⟨fun b rest _ => rfl, fun rest => ⟨rfl, rfl⟩,
    fun v rest h1 h2 => rdI16_enc v rest h1 h2,
    fun v rest h1 h2 => rdI32_enc v rest h1 h2, rfl,
    fun v rest h1 h2 => rdI64_enc v rest h1 h2,
    fun cs rest h1 h2 => rdString_enc cs rest h1 h2⟩

/-- Witness for `C8_scalar_roundtrip`, at concrete inputs: byte `97`,
both bool values, i16 `-2`, i32 `-1`, i64 `-3`, and the two-code-point
string `"hé"` (UTF-8 `68 C3 A9`). -/
theorem C8_scalar_roundtrip_witness :
    rdByte (97 :: []) = .ok (97, [])
    ∧ (rdBool (1 :: []) = .ok (true, []) ∧ rdBool (0 :: []) = .ok (false, []))
    ∧ rdI16 (enc16 (-2) ++ []) = .ok (-2, [])
    ∧ rdI32 (enc32 (-1) ++ []) = .ok (-1, [])
    ∧ rdI64 (enc64 (-3) ++ []) = .ok (-3, [])
    ∧ rdString (enc32 ((utf8Encode [104, 233]).length : Int) ++
        (utf8Encode [104, 233] ++ [])) = .ok ([104, 233], []) :=
  ⟨C8_scalar_roundtrip.1 97 [] (by decide),
   C8_scalar_roundtrip.2.1 [],
   C8_scalar_roundtrip.2.2.1 (-2) [] (by decide) (by decide),
   C8_scalar_roundtrip.2.2.2.1 (-1) [] (by decide) (by decide),
   C8_scalar_roundtrip.2.2.2.2.2.1 (-3) [] (by decide) (by decide),
   C8_scalar_roundtrip.2.2.2.2.2.2 [104, 233] [] (by decide) (by decide)⟩
